import Mathlib

/-!
Verification of the Deep-Claude-R1 reasoning pipeline (`main.py`).

The Python source is shallowly embedded: pure helpers become Lean
functions, the subprocess / network environment of one loop iteration
becomes an explicit record of outcomes, and exceptions become `Except`
values.  External library calls that the source depends on
(`fuzzywuzzy.fuzz.ratio`, `json.loads`) are modelled from their
documented behaviour, restricted to the shapes the pipeline's contract
actually exchanges.
-/

namespace DeepClaude

/-! ### Python string primitives -/

/-- Model of Python `str.lower` (ASCII case folding, which covers every
string the pipeline manipulates). -/
def pyLower (s : List Char) : List Char := s.map Char.toLower

/-- Python whitespace characters recognised by `str.strip()`. -/
def isPySpace (c : Char) : Bool :=
  c = ' ' || c = '\t' || c = '\n' || c = '\x0d' || c = '\x0b' || c = '\x0c'

/-- Model of Python `str.strip()`: drop leading and trailing whitespace. -/
def pyStrip (s : List Char) : List Char :=
  ((s.dropWhile isPySpace).reverse.dropWhile isPySpace).reverse

/-- Model of Python slicing `s[a:b]` for nonnegative bounds: characters
`a, …, b-1`; empty whenever `a ≥ b`. -/
def pySlice (a b : Nat) (s : List Char) : List Char :=
  (s.take b).drop a

/-- Boolean test that `p` is a prefix of the second list. -/
def isPrefixChars : List Char → List Char → Bool
  | [], _ => true
  | _ :: _, [] => false
  | p :: ps, c :: cs => p = c && isPrefixChars ps cs

/-- Auxiliary scan for `pyFind`, carrying the current index. -/
def pyFindAux (pat : List Char) : List Char → Nat → Option Nat
  | hay, i =>
    if isPrefixChars pat hay then some i
    else
      match hay with
      | [] => none
      | _ :: rest => pyFindAux pat rest (i + 1)

/-- Model of Python `hay.find(pat)`: index of the first occurrence, or
`none` where Python returns `-1`. -/
def pyFind (hay pat : List Char) : Option Nat :=
  pyFindAux pat hay 0

/-- Lower-cased text before the first period, as computed by
`check_agreement`: the source's `s.lower().split('.')[0]` (the whole
string when there is no period). -/
def simplified (s : String) : List Char :=
  (pyLower s.data).takeWhile (fun c => c ≠ '.')

/-! ### `fuzzywuzzy.fuzz.ratio`

The source's `check_agreement` calls `fuzz.ratio`.  Its Levenshtein
backend computes `(lensum - dist) / lensum` where `dist` is the edit
distance with substitution cost 2; that distance equals
`lensum - 2 * LCS`, so the ratio is `2 * LCS / lensum`, scaled to
`[0, 100]` and rounded to the nearest integer with ties to even (Python
`round`).  The library's `check_empty_string` guard returns 0 outright
when either argument is empty. -/

/-- Inner loop of the longest-common-subsequence length: recursion over
the second list, with the recursive calls on the tail of the first list
supplied as `f`. -/
def lcsInner (x : Char) (f : List Char → Nat) : List Char → Nat
  | [] => 0
  | y :: ys => if x = y then f ys + 1 else max (lcsInner x f ys) (f (y :: ys))

/-- Longest-common-subsequence length of two character lists; the core of
the modelled `fuzz.ratio`. -/
def lcsLen : List Char → List Char → Nat
  | [], _ => 0
  | x :: as, b => lcsInner x (lcsLen as) b

/-- Python 3 `round(n / d)` for nonnegative `n` and positive `d`, in
exact arithmetic: nearest integer, ties to even. -/
def ratioRound (n d : Nat) : Nat :=
  if 2 * (n % d) < d then n / d
  else if d < 2 * (n % d) then n / d + 1
  else if n / d % 2 = 0 then n / d else n / d + 1

/-- Model of `fuzz.ratio(s1, s2)`: an integer score in `[0, 100]`.
Returns 0 when either input is empty (the library's empty-string guard);
otherwise `round(100 * 2 * LCS / (len s1 + len s2))`. -/
def fuzzRatio (s1 s2 : List Char) : Nat :=
  if s1 = [] ∨ s2 = [] then 0
  else ratioRound (200 * lcsLen s1 s2) (s1.length + s2.length)

/-! ### `check_agreement` (main.py lines 146-159) -/

/-- Source `check_agreement(deepseek, claude, threshold)`: the test
`fuzz.ratio(deepseek.lower().split('.')[0], claude.lower().split('.')[0]) / 100 > threshold`. -/
def check_agreement (deepseek claude : String) (threshold : ℚ) : Bool :=
  decide ((fuzzRatio (simplified deepseek) (simplified claude) : ℚ) / 100 > threshold)

/-- The Python signature's default threshold, `0.7`. -/
def defaultThreshold : ℚ := 7 / 10

/-- Source `check_agreement` as called with the defaulted threshold
argument. -/
def check_agreement_default (deepseek claude : String) : Bool :=
  check_agreement deepseek claude defaultThreshold

/-- The spec's AgreementScore: the fuzzy ratio in `[0, 100]` over the
lower-cased first sentences, divided by 100. -/
def agreement_score (deepseek claude : String) : ℚ :=
  (fuzzRatio (simplified deepseek) (simplified claude) : ℚ) / 100

/-! ### Payload decoding (`json.loads` on the delimited block)

The child-process contract exchanges one flat JSON object with string
fields, so `json.loads` is modelled on exactly that shape: an object
whose keys and values are JSON strings with the standard single-character
escapes.  Inputs outside this shape are rejected, which only narrows the
set of outputs the round-trip theorem speaks about. -/

/-- Single-character JSON escapes (`\uXXXX` is not needed by the
contract and is rejected, as is any other escape). -/
def escChar (e : Char) : Option Char :=
  if e = '"' then some '"'
  else if e = '\\' then some '\\'
  else if e = '/' then some '/'
  else if e = 'n' then some '\n'
  else if e = 't' then some '\t'
  else if e = 'r' then some '\x0d'
  else if e = 'b' then some '\x08'
  else if e = 'f' then some '\x0c'
  else none

/-- Parse the body of a JSON string after its opening quote, returning
the decoded characters and the remainder after the closing quote.
Unescaped control characters are rejected, as in strict `json.loads`. -/
def parseStringBody : List Char → Option (List Char × List Char)
  | [] => none
  | '"' :: rest => some ([], rest)
  | '\\' :: e :: rest =>
    match escChar e with
    | none => none
    | some c =>
      match parseStringBody rest with
      | none => none
      | some (s, r) => some (c :: s, r)
  | ['\\'] => none
  | c :: rest =>
    if c.toNat < 32 then none
    else
      match parseStringBody rest with
      | none => none
      | some (s, r) => some (c :: s, r)

/-- Skip JSON whitespace (space, tab, line feed, carriage return). -/
def skipWs : List Char → List Char
  | [] => []
  | c :: rest =>
    if c = ' ' || c = '\t' || c = '\n' || c = '\x0d' then skipWs rest
    else c :: rest

/-- Parse the members of a JSON object after its opening brace (or after
a comma), fuelled by the input length. -/
def parseMembers : Nat → List Char → Option (List (String × String) × List Char)
  | 0, _ => none
  | fuel + 1, s =>
    match skipWs s with
    | '"' :: r0 =>
      match parseStringBody r0 with
      | none => none
      | some (key, r1) =>
        match skipWs r1 with
        | ':' :: r2 =>
          match skipWs r2 with
          | '"' :: r3 =>
            match parseStringBody r3 with
            | none => none
            | some (val, r4) =>
              match skipWs r4 with
              | ',' :: r5 =>
                match parseMembers fuel r5 with
                | none => none
                | some (ms, rest) => some ((key.asString, val.asString) :: ms, rest)
              | '\x7d' :: r5 => some ([(key.asString, val.asString)], r5)
              | _ => none
          | _ => none
        | _ => none
    | _ => none

/-- Parse a complete flat JSON object (with nothing but whitespace after
it), returning its members in textual order. -/
def parseJsonObject (s : List Char) : Option (List (String × String)) :=
  match skipWs s with
  | '\x7b' :: rest =>
    match skipWs rest with
    | '\x7d' :: r2 => if skipWs r2 = [] then some [] else none
    | _ =>
      match parseMembers (rest.length + 1) rest with
      | none => none
      | some (ms, r) => if skipWs r = [] then some ms else none
  | _ => none

/-- Lookup in the decoded object; the last binding of a repeated key
wins, as in a Python dict built by `json.loads`. -/
def dictLookup (ms : List (String × String)) (k : String) : Option String :=
  ms.foldl (fun acc p => if p.1 = k then some p.2 else acc) none

/-- Key of the payload's answer field. -/
def answerKey : String := "answer"

/-- Key of the payload's reasoning field. -/
def reasoningKey : String := "reasoning"

/-- Failure taxonomy of the extraction step: markers absent, payload not
decodable, or a required field missing (`result['answer']` /
`result['reasoning']` raising `KeyError`). -/
inductive ParseErr where
  | markerNotFound
  | jsonInvalid
  | fieldMissing
deriving DecidableEq

/-- Decode the delimited payload: `json.loads` followed by the two field
accesses. -/
def decodePayload (s : List Char) : Except ParseErr (String × String) :=
  match parseJsonObject s with
  | none => Except.error ParseErr.jsonInvalid
  | some ms =>
    match dictLookup ms answerKey, dictLookup ms reasoningKey with
    | some a, some r => Except.ok (a, r)
    | _, _ => Except.error ParseErr.fieldMissing

/-- The literal start sentinel of the child-process output block. -/
def startMarker : List Char := "=== DEEPSEEK RESULT ===".data

/-- The literal end sentinel of the child-process output block. -/
def endMarker : List Char := "=== END DEEPSEEK RESULT ===".data

/-- Extraction step of `call_openrouter_api` (main.py lines 121-138):
find both sentinels with `str.find`, slice strictly between them, strip
whitespace, decode the payload. -/
def extractResult (output : String) : Except ParseErr (String × String) :=
  match pyFind output.data startMarker, pyFind output.data endMarker with
  | some i, some j =>
    decodePayload (pyStrip (pySlice (i + startMarker.length) j output.data))
  | _, _ => Except.error ParseErr.markerNotFound

/-! ### Provider Invoker (`call_openrouter_api`, main.py lines 78-144) -/

/-- Environment of one first-stage invocation: whether the compiled
integration artifact `dist/openrouter.js` exists, and the child
process's exit code and captured streams. -/
structure InvokeEnv where
  jsExists : Bool
  returncode : Int
  stdout : String
  stderr : String

/-- Failure taxonomy of the invocation, mirroring the raised
exceptions. -/
inductive InvokeError where
  | integrationMissing
  | childProcessFailed (code : Int) (err : String)
  | malformedOutput (e : ParseErr)
deriving DecidableEq

/-- Sentinel answer returned by the `except` arm. -/
def ERR_ANSWER : String := "[Error getting answer]"

/-- Sentinel reasoning returned by the `except` arm. -/
def ERR_REASONING : String := "[Error getting reasoning]"

/-- Body of the `try` block of `call_openrouter_api`: artifact check,
child exit-code check, then extraction; each raised exception becomes an
explicit error. -/
def invokeCore (env : InvokeEnv) : Except InvokeError (String × String) :=
  if env.jsExists = false then Except.error InvokeError.integrationMissing
  else if env.returncode ≠ 0 then
    Except.error (InvokeError.childProcessFailed env.returncode env.stderr)
  else
    match extractResult env.stdout with
    | Except.ok p => Except.ok p
    | Except.error e => Except.error (InvokeError.malformedOutput e)

/-- Whole of `call_openrouter_api`: the `except Exception` arm converts
every failure into the sentinel pair with elapsed time `0.0`; on success
the wall-clock `elapsed` (a parameter of the embedding) is returned. -/
def call_openrouter_api (env : InvokeEnv) (elapsed : ℚ) : String × String × ℚ :=
  match invokeCore env with
  | Except.ok (a, r) => (a, r, elapsed)
  | Except.error _ => (ERR_ANSWER, ERR_REASONING, 0)

/-! ### Pipeline Orchestrator (one iteration of the `while` loop in
`main`, main.py lines 219-312) -/

/-- One recorded question/answer cycle (`conversation_history` entries,
main.py lines 284-288). -/
structure HistoryEntry where
  question : String
  deepseek_answer : String
  deepseek_reasoning : String
  claude : String
deriving DecidableEq

/-- Environment of one loop iteration: the first-stage invocation
environment and timing, plus the second-stage (Claude) and comparison
(Haiku) provider behaviours as functions from the request prompt to the
response text or the raised fault's message. -/
structure StepEnv where
  invoke : InvokeEnv
  deepseekTime : ℚ
  claude : String → Except String String
  haiku : String → Except String String

/-- The second-stage request content built in `main` (main.py lines
246-259). -/
def buildClaudePrompt (question reasoning : String) : String :=
  "'" ++ question ++ "' given this question, and the following reasoning:\n\n" ++
    reasoning ++ "\n\nWhat is your answer to '" ++ question ++ "'?"

/-- The comparison prompt of `compare_responses` (main.py lines
176-191), with the source's literal indentation. -/
def comparisonPrompt (question deepseek claude : String) : String :=
  "Analyze these two responses to the question \"" ++ question ++ "\":\n    \n    [DeepSeek Response]\n    " ++
    deepseek ++ "\n    \n    [Claude Response] \n    " ++ claude ++
    "\n    \n    Compare them by:\n    1. Identifying 3 key differences in approach\n    2. Noting one strength of each\n    3. Highlighting any factual discrepancies\n    4. Judging which is more comprehensive\n    5. Suggesting potential improvements\n    \n    Use bullet points and keep analysis under 5 sentences."

/-- Source `compare_responses` (main.py lines 174-205): on success the
response's first content block, on any raised fault the inline narrative
`"Comparison failed: " ++ str(e)`. -/
def compare_responses (haiku : String → Except String String)
    (question deepseek claude : String) : String :=
  match haiku (comparisonPrompt question deepseek claude) with
  | Except.ok t => t
  | Except.error e => "Comparison failed: " ++ e

/-- Outcome of one loop iteration: either the run completed and was
recorded (with the divergence-warning flag and the Haiku analysis
text), or an exception reached the loop's `except` arm, which prints
the error section and `continue`s to the next question. -/
inductive StepOutcome where
  | recorded (divergenceWarning : Bool) (analysis : String)
  | surfacedError (msg : String)
deriving DecidableEq

/-- One iteration of the chat loop on question `q`: stage 1 (which never
raises: its own `except` arm degrades it to the sentinel pair), stage 2
(whose raised fault propagates to the loop's `except` arm **before** the
history append), the history append, the Haiku comparison (which never
raises) and the fallback agreement check at the default threshold. -/
def runQuestion (env : StepEnv) (q : String) (history : List HistoryEntry) :
    List HistoryEntry × StepOutcome :=
  let res := call_openrouter_api env.invoke env.deepseekTime
  match env.claude (buildClaudePrompt q res.2.1) with
  | Except.error e => (history, StepOutcome.surfacedError e)
  | Except.ok final =>
    (history ++ [⟨q, res.1, res.2.1, final⟩],
     StepOutcome.recorded (!check_agreement res.1 final defaultThreshold)
       (compare_responses env.haiku q res.1 final))

/-! ### Session History across the interactive loop -/

/-- One interactive input: a question to run through the pipeline, or
the `history` command. -/
inductive Action where
  | ask (q : String) (env : StepEnv)
  | showHistory

/-- Render of `print_conversation_history` (main.py lines 161-172): one
titled section per entry, in order, 1-indexed. -/
def renderHistory (h : List HistoryEntry) : List (String × String) :=
  h.enum.map (fun p =>
    ("Session " ++ toString (p.1 + 1),
     "Question: " ++ p.2.question ++ "\nDeepSeek Answer: " ++
       p.2.deepseek_answer ++ "\nClaude Answer: " ++ p.2.claude))

/-- One step of the interactive loop over the state
`(conversation_history, displayed output)`.  The `history` command only
renders; a question runs the pipeline, with a surfaced error printed
before the loop continues. -/
def sessionStep : List HistoryEntry × List String → Action → List HistoryEntry × List String
  | (h, out), Action.ask q env =>
    match runQuestion env q h with
    | (h2, StepOutcome.recorded w analysis) =>
      (h2, out ++ [analysis] ++ (if w then ["Models show significant divergence!"] else []))
    | (h2, StepOutcome.surfacedError e) => (h2, out ++ ["Error: " ++ e])
  | (h, out), Action.showHistory =>
    (h, out ++ (renderHistory h).map (fun p => p.1 ++ "\n" ++ p.2))

/-- A whole interactive session from the empty history. -/
def runSession (acts : List Action) : List HistoryEntry × List String :=
  acts.foldl sessionStep ([], [])

/-- The question/environment of an `ask` action, if any. -/
def askOf : Action → Option (String × StepEnv)
  | Action.ask q env => some (q, env)
  | Action.showHistory => none

/-- An action completes its pipeline run: for a question, the
second-stage call returns instead of raising (stage 1 and the
comparison cannot abort a run); the `history` command always
completes. -/
def askSucceeds : Action → Prop
  | Action.ask q env =>
    ∃ f, env.claude
        (buildClaudePrompt q (call_openrouter_api env.invoke env.deepseekTime).2.1) =
      Except.ok f
  | Action.showHistory => True

/-- The HistoryEntry a successful run of question `q` in environment
`env` records. -/
def entryOf (q : String) (env : StepEnv) : HistoryEntry :=
  let res := call_openrouter_api env.invoke env.deepseekTime
  match env.claude (buildClaudePrompt q res.2.1) with
  | Except.ok f => ⟨q, res.1, res.2.1, f⟩
  | Except.error _ => ⟨q, res.1, res.2.1, ""⟩

/-! ### Concrete instances used as evaluation witnesses -/

/-- Well-formed child-process output: diagnostics, both sentinels, and a
valid payload between them. -/
def demoStdoutGood : String :=
  "Spinner noise\n=== DEEPSEEK RESULT ===\n\x7b\"answer\": \"4\", \"reasoning\": \"Addition of two and two.\"\x7d\n=== END DEEPSEEK RESULT ===\ntail"

/-- First-stage environment of a fully successful invocation. -/
def demoEnvGood : InvokeEnv :=
  ⟨true, 0, demoStdoutGood, ""⟩

/-- First-stage environment with the integration artifact absent. -/
def demoEnvMissing : InvokeEnv :=
  ⟨false, 0, "", ""⟩

/-- Well-formed child-process output whose payload has an empty answer
field. -/
def demoStdoutEmptyAnswer : String :=
  "=== DEEPSEEK RESULT === \x7b\"answer\": \"\", \"reasoning\": \"r\"\x7d === END DEEPSEEK RESULT ==="

/-- First-stage environment that succeeds with an empty answer field. -/
def demoEnvEmptyAnswer : InvokeEnv :=
  ⟨true, 0, demoStdoutEmptyAnswer, ""⟩

/-- Iteration environment where every provider call succeeds. -/
def demoStepOk : StepEnv :=
  ⟨demoEnvGood, 1, fun _ => Except.ok ("The answer is 4."), fun _ => Except.ok ("analysis")⟩

/-- Iteration environment where stage 1 fails (artifact absent) but
stage 2 succeeds. -/
def demoStepMissing : StepEnv :=
  ⟨demoEnvMissing, 1, fun _ => Except.ok ("B"), fun _ => Except.error ("haiku down")⟩

/-- Iteration environment where stage 1 succeeds but the stage-2 call
raises. -/
def demoStepClaudeFail : StepEnv :=
  ⟨demoEnvGood, 1, fun _ => Except.error ("boom"), fun _ => Except.ok ("x")⟩

/-- A short scripted session: two succeeding questions around one
`history` command. -/
def demoActs : List Action :=
  [Action.ask ("q1") demoStepOk, Action.showHistory, Action.ask ("q2") demoStepOk]

/-! ## Theorems -/

/-! ### Lemmas about the LCS core and the rounded ratio -/

theorem lcsLen_nil_left (b : List Char) : lcsLen [] b = 0 := rfl

theorem lcsLen_nil_right (a : List Char) : lcsLen a [] = 0 := by
  cases a <;> rfl

theorem lcsLen_cons_cons (x y : Char) (as ys : List Char) :
    lcsLen (x :: as) (y :: ys) =
      if x = y then lcsLen as ys + 1
      else max (lcsLen (x :: as) ys) (lcsLen as (y :: ys)) := rfl

theorem lcsLen_comm : ∀ a b : List Char, lcsLen a b = lcsLen b a := by
  intro a
  induction a with
  | nil =>
    intro b
    rw [lcsLen_nil_left, lcsLen_nil_right]
  | cons x as ihA =>
    intro b
    induction b with
    | nil =>
      rw [lcsLen_nil_left, lcsLen_nil_right]
    | cons y ys ihB =>
      rw [lcsLen_cons_cons, lcsLen_cons_cons]
      by_cases hxy : x = y
      · rw [if_pos hxy, if_pos hxy.symm, ihA ys]
      · rw [if_neg hxy, if_neg (fun h => hxy h.symm), ihB, ihA (y :: ys),
          Nat.max_comm]

theorem lcsLen_self : ∀ s : List Char, lcsLen s s = s.length := by
  intro s
  induction s with
  | nil => rfl
  | cons x xs ih =>
    rw [lcsLen_cons_cons, if_pos rfl, ih]
    rfl

theorem lcsLen_le_left : ∀ a b : List Char, lcsLen a b ≤ a.length := by
  intro a
  induction a with
  | nil =>
    intro b
    rw [lcsLen_nil_left]
    exact Nat.zero_le _
  | cons x as ihA =>
    intro b
    induction b with
    | nil =>
      rw [lcsLen_nil_right]
      exact Nat.zero_le _
    | cons y ys ihB =>
      rw [lcsLen_cons_cons]
      by_cases hxy : x = y
      · rw [if_pos hxy]
        exact Nat.succ_le_succ (ihA ys)
      · rw [if_neg hxy]
        exact Nat.max_le.mpr
          ⟨ihB, Nat.le_trans (ihA (y :: ys)) (Nat.le_succ _)⟩

theorem lcsLen_le_right (a b : List Char) : lcsLen a b ≤ b.length := by
  rw [lcsLen_comm]
  exact lcsLen_le_left b a

theorem ratioRound_le_100 (n d : Nat) (hd : 0 < d) (hn : n ≤ 100 * d) :
    ratioRound n d ≤ 100 := by
  have hq : n / d ≤ 100 := by
    have := Nat.div_le_div_right (c := d) hn
    rwa [Nat.mul_div_cancel _ hd] at this
  unfold ratioRound
  by_cases h1 : 2 * (n % d) < d
  · rw [if_pos h1]
    exact hq
  · rw [if_neg h1]
    have hr : 0 < n % d := by
      rcases Nat.eq_zero_or_pos (n % d) with h0 | h0
      · exact absurd (by rw [h0]; simpa using hd) h1
      · exact h0
    have hqlt : n / d < 100 := by
      rcases Nat.lt_or_ge (n / d) 100 with h | h
      · exact h
      · exfalso
        have h100 : n / d = 100 := Nat.le_antisymm hq h
        have hge : 100 * d + 1 ≤ n := by
          calc 100 * d + 1 = d * (n / d) + 1 := by rw [h100, Nat.mul_comm]
            _ ≤ d * (n / d) + n % d := Nat.add_le_add_left hr _
            _ = n := Nat.div_add_mod n d
        omega
    by_cases h2 : d < 2 * (n % d)
    · rw [if_pos h2]
      omega
    · rw [if_neg h2]
      by_cases h3 : n / d % 2 = 0
      · rw [if_pos h3]
        exact hq
      · rw [if_neg h3]
        omega

theorem ratioRound_exact_100 (m : Nat) (hm : 0 < m) :
    ratioRound (100 * m) m = 100 := by
  unfold ratioRound
  have hmod : 100 * m % m = 0 := Nat.mul_mod_left 100 m
  have hdiv : 100 * m / m = 100 := Nat.mul_div_cancel 100 hm
  rw [hmod, hdiv]
  simp [hm]

theorem fuzzRatio_le_100 (s1 s2 : List Char) : fuzzRatio s1 s2 ≤ 100 := by
  unfold fuzzRatio
  by_cases h : s1 = [] ∨ s2 = []
  · rw [if_pos h]
    omega
  · rw [if_neg h]
    push_neg at h
    have h1 : 0 < s1.length := List.length_pos.mpr h.1
    have h2 : 0 < s2.length := List.length_pos.mpr h.2
    apply ratioRound_le_100 _ _ (by omega)
    have hL : 2 * lcsLen s1 s2 ≤ s1.length + s2.length := by
      have := lcsLen_le_left s1 s2
      have := lcsLen_le_right s1 s2
      omega
    calc 200 * lcsLen s1 s2 = 100 * (2 * lcsLen s1 s2) := by ring
      _ ≤ 100 * (s1.length + s2.length) := Nat.mul_le_mul_left 100 hL

theorem fuzzRatio_comm (s1 s2 : List Char) : fuzzRatio s1 s2 = fuzzRatio s2 s1 := by
  unfold fuzzRatio
  by_cases h : s1 = [] ∨ s2 = []
  · rw [if_pos h, if_pos (Or.symm h)]
  · rw [if_neg h, if_neg (fun hc => h (Or.symm hc)), lcsLen_comm, Nat.add_comm]

theorem fuzzRatio_self (s : List Char) (h : s ≠ []) : fuzzRatio s s = 100 := by
  unfold fuzzRatio
  rw [if_neg (by simp [h]), lcsLen_self]
  have hL : 0 < s.length := List.length_pos.mpr h
  have h200 : 200 * s.length = 100 * (s.length + s.length) := by ring
  rw [h200]
  exact ratioRound_exact_100 _ (by omega)

/-! ### Claim C5: verdict equals score-above-threshold -/

/-- Claim C5: for every pair of answer strings and every threshold, the
lexical agreement verdict equals `score > threshold`, where the score is
the character-level fuzzy-match ratio in `[0, 100]` divided by 100,
computed over the first sentence of each answer after lower-casing; the
defaulted call uses threshold `0.7`. -/
theorem agreement_verdict_eq_score_gt_threshold (a b : String) (t : ℚ) :
    check_agreement a b t = decide (agreement_score a b > t) ∧
    check_agreement_default a b = decide (agreement_score a b > 7 / 10) ∧
    0 ≤ agreement_score a b ∧ agreement_score a b ≤ 1 := by
  refine ⟨rfl, rfl, ?_, ?_⟩
  · unfold agreement_score
    positivity
  · unfold agreement_score
    rw [div_le_one (by norm_num : (0:ℚ) < 100)]
    exact_mod_cast fuzzRatio_le_100 (simplified a) (simplified b)

/-! ### Claim C9: self-comparison -/

/-- Claim C9 counterexample: the claim asserts that comparing any text
to itself yields ratio 1.0 and verdict true for every threshold below
1.0, but on the empty text the library's empty-string guard makes the
score 0 and the verdict false at threshold 0.5. -/
theorem self_agreement_fails_on_empty :
    ((1 : ℚ) / 2 < 1) ∧ agreement_score ("") ("") = 0 ∧
      check_agreement ("") ("") (1 / 2) = false := by
  have h0 : fuzzRatio (simplified ("")) (simplified ("")) = 0 := rfl
  refine ⟨by norm_num, ?_, ?_⟩
  · unfold agreement_score
    rw [h0]
    norm_num
  · unfold check_agreement
    rw [h0, decide_eq_false_iff_not]
    norm_num

/-- Claim C9 (amended): for every text whose lower-cased first sentence
is non-empty and every threshold strictly below 1.0, comparing the text
to itself yields score 1.0 and verdict true.  (On a text whose first
sentence is empty the library's empty-string guard yields score 0
instead.) -/
theorem self_agreement_of_nonempty (s : String) (t : ℚ)
    (hne : simplified s ≠ []) (ht : t < 1) :
    agreement_score s s = 1 ∧ check_agreement s s t = true := by
  have h100 := fuzzRatio_self (simplified s) hne
  have hs : agreement_score s s = 1 := by
    unfold agreement_score
    rw [h100]
    norm_num
  refine ⟨hs, ?_⟩
  unfold check_agreement
  rw [h100, decide_eq_true_eq]
  have : ((100 : Nat) : ℚ) / 100 = 1 := by norm_num
  rw [this]
  exact ht

/-- Witness for the amended C9 at the text `"ok"` and threshold `1/2`. -/
theorem self_agreement_of_nonempty_witness :
    (simplified ("ok") ≠ [] ∧ (1 : ℚ) / 2 < 1) ∧
      (agreement_score ("ok") ("ok") = 1 ∧ check_agreement ("ok") ("ok") (1 / 2) = true) :=
  ⟨⟨by decide, by norm_num⟩,
    self_agreement_of_nonempty ("ok") (1 / 2) (by decide) (by norm_num)⟩

/-! ### Claim C10: symmetry of the lexical agreement check -/

/-- Claim C10: the lexical agreement check is symmetric in its two
answer arguments, for every threshold, because the underlying fuzzy
ratio is symmetric and each argument is normalized independently. -/
theorem check_agreement_symm (a b : String) (t : ℚ) :
    check_agreement a b t = check_agreement b a t := by
  unfold check_agreement
  rw [fuzzRatio_comm]

/-! ### Claim C1: round-trip fidelity of the extraction -/

/-- Claim C1: for every raw child-process output containing both
sentinels, if the substring strictly between them, stripped of
surrounding whitespace, decodes as a JSON object with string fields
`answer` and `reasoning`, then the extraction returns exactly those
payload fields. -/
theorem extract_roundtrip (output : String) (i j : Nat) (a r : String)
    (hs : pyFind output.data startMarker = some i)
    (he : pyFind output.data endMarker = some j)
    (hp : decodePayload (pyStrip (pySlice (i + startMarker.length) j output.data)) =
      Except.ok (a, r)) :
    extractResult output = Except.ok (a, r) := by
  unfold extractResult
  rw [hs, he]
  exact hp

/-- Witness for C1 on concrete well-formed output. -/
theorem extract_roundtrip_witness :
    (pyFind demoStdoutGood.data startMarker = some 14 ∧
     pyFind demoStdoutGood.data endMarker = some 95 ∧
     decodePayload (pyStrip (pySlice (14 + startMarker.length) 95 demoStdoutGood.data)) =
       Except.ok (("4"), ("Addition of two and two."))) ∧
    extractResult demoStdoutGood = Except.ok (("4"), ("Addition of two and two.")) :=
  ⟨⟨by decide, by decide, rfl⟩,
    extract_roundtrip demoStdoutGood 14 95 ("4") ("Addition of two and two.")
      (by decide) (by decide) rfl⟩

/-! ### Claim C4: missing sentinel always yields the marker failure -/

/-- Claim C4: for every raw output string missing either the start
sentinel or the end sentinel, extraction fails with precisely the
marker-not-found failure — never any other fault, and in particular
never a (partial) result. -/
theorem missing_marker_fails (output : String)
    (h : pyFind output.data startMarker = none ∨ pyFind output.data endMarker = none) :
    extractResult output = Except.error ParseErr.markerNotFound := by
  unfold extractResult
  rcases h with h | h
  · rw [h]
  · rw [h]
    cases pyFind output.data startMarker <;> rfl

/-- Witness for C4 on output that contains neither sentinel. -/
theorem missing_marker_fails_witness :
    (pyFind ("model diagnostics only").data startMarker = none ∨
     pyFind ("model diagnostics only").data endMarker = none) ∧
    extractResult ("model diagnostics only") = Except.error ParseErr.markerNotFound :=
  ⟨Or.inl (by decide), missing_marker_fails ("model diagnostics only") (Or.inl (by decide))⟩

/-! ### Claim C8: sentinel error strings on failure -/

/-- Claim C8 counterexample: the claim also asserts that on success both
fields are non-empty, but the code never checks this: a payload with an
empty `answer` string decodes successfully and is returned as-is. -/
theorem success_with_empty_answer :
    invokeCore demoEnvEmptyAnswer = Except.ok (("") , ("r")) ∧
    call_openrouter_api demoEnvEmptyAnswer 1 = (("") , ("r"), 1) :=
  ⟨rfl, rfl⟩

/-- Claim C8 (amended): for every failure of the first-stage invocation
(missing artifact, non-zero child exit, missing markers, or undecodable
payload), the returned result has both fields set to the sentinel error
strings, which are non-empty, so callers can always render them; on
success the fields equal the payload's fields, which the code does not
require to be non-empty. -/
theorem failure_yields_error_sentinels (env : InvokeEnv) (t : ℚ) (err : InvokeError)
    (hfail : invokeCore env = Except.error err) :
    call_openrouter_api env t = (ERR_ANSWER, ERR_REASONING, 0) ∧
    ERR_ANSWER ≠ ("") ∧ ERR_REASONING ≠ ("") := by
  refine ⟨?_, by decide, by decide⟩
  unfold call_openrouter_api
  rw [hfail]

/-- Witness for the amended C8: the artifact-absent environment. -/
theorem failure_yields_error_sentinels_witness :
    invokeCore demoEnvMissing = Except.error InvokeError.integrationMissing ∧
    (call_openrouter_api demoEnvMissing 1 = (ERR_ANSWER, ERR_REASONING, 0) ∧
     ERR_ANSWER ≠ ("") ∧ ERR_REASONING ≠ ("")) :=
  ⟨rfl, failure_yields_error_sentinels demoEnvMissing 1
    InvokeError.integrationMissing rfl⟩

/-! ### Orchestrator helper lemmas -/

theorem call_openrouter_api_error (env : InvokeEnv) (t : ℚ) (err : InvokeError)
    (h : invokeCore env = Except.error err) :
    call_openrouter_api env t = (ERR_ANSWER, ERR_REASONING, 0) := by
  unfold call_openrouter_api
  rw [h]

theorem runQuestion_ok (env : StepEnv) (q : String) (h : List HistoryEntry) (f : String)
    (hok : env.claude (buildClaudePrompt q
        (call_openrouter_api env.invoke env.deepseekTime).2.1) = Except.ok f) :
    runQuestion env q h =
      (h ++ [⟨q, (call_openrouter_api env.invoke env.deepseekTime).1,
              (call_openrouter_api env.invoke env.deepseekTime).2.1, f⟩],
       StepOutcome.recorded
         (!check_agreement (call_openrouter_api env.invoke env.deepseekTime).1 f defaultThreshold)
         (compare_responses env.haiku q
           (call_openrouter_api env.invoke env.deepseekTime).1 f)) := by
  simp only [runQuestion]
  rw [hok]

theorem runQuestion_claude_error (env : StepEnv) (q : String)
    (h : List HistoryEntry) (e : String)
    (herr : env.claude (buildClaudePrompt q
        (call_openrouter_api env.invoke env.deepseekTime).2.1) = Except.error e) :
    runQuestion env q h = (h, StepOutcome.surfacedError e) := by
  simp only [runQuestion]
  rw [herr]

theorem entryOf_ok (q : String) (env : StepEnv) (f : String)
    (hok : env.claude (buildClaudePrompt q
        (call_openrouter_api env.invoke env.deepseekTime).2.1) = Except.ok f) :
    entryOf q env =
      ⟨q, (call_openrouter_api env.invoke env.deepseekTime).1,
        (call_openrouter_api env.invoke env.deepseekTime).2.1, f⟩ := by
  simp only [entryOf]
  rw [hok]

theorem sessionStep_show_fst (h : List HistoryEntry) (out : List String) :
    (sessionStep (h, out) Action.showHistory).1 = h := rfl

theorem sessionStep_ask_fst_ok (h : List HistoryEntry) (out : List String)
    (q : String) (env : StepEnv) (f : String)
    (hok : env.claude (buildClaudePrompt q
        (call_openrouter_api env.invoke env.deepseekTime).2.1) = Except.ok f) :
    (sessionStep (h, out) (Action.ask q env)).1 = h ++ [entryOf q env] := by
  simp only [sessionStep]
  rw [runQuestion_ok env q h f hok, entryOf_ok q env f hok]

theorem sessionStep_fst_append (st : List HistoryEntry × List String) (a : Action) :
    ∃ s, (sessionStep st a).1 = st.1 ++ s := by
  rcases st with ⟨h, out⟩
  cases a with
  | showHistory => exact ⟨[], by simp [sessionStep_show_fst]⟩
  | ask q env =>
    cases hc : env.claude (buildClaudePrompt q
        (call_openrouter_api env.invoke env.deepseekTime).2.1) with
    | error e =>
      refine ⟨[], ?_⟩
      simp only [sessionStep]
      rw [runQuestion_claude_error env q h e hc]
      simp
    | ok f =>
      exact ⟨[entryOf q env], sessionStep_ask_fst_ok h out q env f hc⟩

theorem runSession_go :
    ∀ (acts : List Action) (st : List HistoryEntry × List String),
      (∀ a ∈ acts, askSucceeds a) →
      (acts.foldl sessionStep st).1 =
        st.1 ++ (acts.filterMap askOf).map (fun p => entryOf p.1 p.2) := by
  intro acts
  induction acts with
  | nil =>
    intro st _
    simp
  | cons a rest ih =>
    intro st hs
    have ha := hs a (List.mem_cons_self a rest)
    have hrest := fun x hx => hs x (List.mem_cons_of_mem a hx)
    rw [List.foldl_cons, ih (sessionStep st a) hrest]
    cases a with
    | showHistory =>
      rcases st with ⟨h, out⟩
      simp only [List.filterMap_cons, askOf, sessionStep_show_fst]
    | ask q env =>
      obtain ⟨f, hf⟩ := ha
      rcases st with ⟨h, out⟩
      rw [sessionStep_ask_fst_ok h out q env f hf]
      simp [askOf]

/-! ### Claim C2: degraded stage 1 still reaches stage 2 and history -/

/-- Claim C2: whenever the first-stage invocation fails (artifact
absent, child failure, or malformed output), `main` still invokes the
second-stage client — the prompt it sends carries the placeholder
reasoning string — and still appends a HistoryEntry whose first-stage
component is the degraded sentinel result; the question's run completes
as recorded rather than aborting. -/
theorem degraded_stage1_still_records (env : StepEnv) (q : String)
    (history : List HistoryEntry) (err : InvokeError) (f : String)
    (hfail : invokeCore env.invoke = Except.error err)
    (hok : env.claude (buildClaudePrompt q ERR_REASONING) = Except.ok f) :
    runQuestion env q history =
      (history ++ [⟨q, ERR_ANSWER, ERR_REASONING, f⟩],
       StepOutcome.recorded (!check_agreement ERR_ANSWER f defaultThreshold)
         (compare_responses env.haiku q ERR_ANSWER f)) := by
  have hres := call_openrouter_api_error env.invoke env.deepseekTime err hfail
  simp only [runQuestion, hres]
  rw [hok]

/-- Witness for C2: artifact absent, stage 2 answering. -/
theorem degraded_stage1_still_records_witness :
    (invokeCore demoStepMissing.invoke = Except.error InvokeError.integrationMissing ∧
     demoStepMissing.claude (buildClaudePrompt ("Q") ERR_REASONING) = Except.ok ("B")) ∧
    runQuestion demoStepMissing ("Q") [] =
      ([⟨("Q"), ERR_ANSWER, ERR_REASONING, ("B")⟩],
       StepOutcome.recorded (!check_agreement ERR_ANSWER ("B") defaultThreshold)
         (compare_responses demoStepMissing.haiku ("Q") ERR_ANSWER ("B"))) :=
  ⟨⟨rfl, rfl⟩,
    degraded_stage1_still_records demoStepMissing ("Q") []
      InvokeError.integrationMissing ("B") rfl rfl⟩

/-! ### Claim C3: stage-2 faults -/

/-- Claim C3 counterexample: with stage 1 succeeding and the stage-2
call raising (message `"boom"`), the iteration surfaces the error and
continues, but the history it returns is unchanged (empty here): no
placeholder is substituted and the run is dropped from the per-question
record, contrary to the claim. -/
theorem stage2_fault_drops_record :
    (runQuestion demoStepClaudeFail ("Q") []).1 = [] ∧
    (runQuestion demoStepClaudeFail ("Q") []).2 = StepOutcome.surfacedError ("boom") :=
  ⟨rfl, rfl⟩

/-- Claim C3 (amended): for every fault raised by the stage-2
(refinement) provider call, the fault is surfaced as a visible
diagnostic and the loop proceeds to the next question — the session is
not aborted — but no placeholder is substituted and no HistoryEntry is
recorded for that question: the history is returned unchanged. -/
theorem stage2_fault_surfaced_not_recorded (env : StepEnv) (q : String)
    (history : List HistoryEntry) (e : String)
    (hfault : env.claude (buildClaudePrompt q
        (call_openrouter_api env.invoke env.deepseekTime).2.1) = Except.error e) :
    runQuestion env q history = (history, StepOutcome.surfacedError e) :=
  runQuestion_claude_error env q history e hfault

/-- Witness for the amended C3 on a non-empty starting history. -/
theorem stage2_fault_surfaced_not_recorded_witness :
    demoStepClaudeFail.claude (buildClaudePrompt ("Q")
      (call_openrouter_api demoStepClaudeFail.invoke demoStepClaudeFail.deepseekTime).2.1) =
        Except.error ("boom") ∧
    runQuestion demoStepClaudeFail ("Q") [⟨("p"), ("a"), ("r"), ("c")⟩] =
      ([⟨("p"), ("a"), ("r"), ("c")⟩], StepOutcome.surfacedError ("boom")) :=
  ⟨rfl, stage2_fault_surfaced_not_recorded demoStepClaudeFail ("Q")
    [⟨("p"), ("a"), ("r"), ("c")⟩] ("boom") rfl⟩

/-! ### Claim C6: session history -/

/-- Claim C6: after `N` successfully completed pipeline runs in one
session the history holds exactly the `N` corresponding entries in
processing (insertion) order; every loop step only ever appends to the
history, and displaying the history (the `history` command) leaves it
unchanged. -/
theorem session_history_append_only (acts : List Action)
    (hs : ∀ a ∈ acts, askSucceeds a) :
    (runSession acts).1 = (acts.filterMap askOf).map (fun p => entryOf p.1 p.2) ∧
    (∀ st a, ∃ s, (sessionStep st a).1 = st.1 ++ s) ∧
    (∀ h out, (sessionStep (h, out) Action.showHistory).1 = h) := by
  refine ⟨?_, sessionStep_fst_append, sessionStep_show_fst⟩
  have hgo := runSession_go acts ([], []) hs
  simpa [runSession] using hgo

/-- Witness for C6 on the scripted demo session (two questions around a
`history` command). -/
theorem session_history_append_only_witness :
    (∀ a ∈ demoActs, askSucceeds a) ∧
    ((runSession demoActs).1 = (demoActs.filterMap askOf).map (fun p => entryOf p.1 p.2) ∧
     (∀ st a, ∃ s, (sessionStep st a).1 = st.1 ++ s) ∧
     (∀ h out, (sessionStep (h, out) Action.showHistory).1 = h)) := by
  have hs : ∀ a ∈ demoActs, askSucceeds a := by
    intro a ha
    simp only [demoActs, List.mem_cons, List.not_mem_nil, or_false] at ha
    rcases ha with rfl | rfl | rfl
    · exact ⟨("The answer is 4."), rfl⟩
    · trivial
    · exact ⟨("The answer is 4."), rfl⟩
  exact ⟨hs, session_history_append_only demoActs hs⟩

/-! ### Claim C7: narrative comparison is total on faults -/

/-- Claim C7: for every question and pair of answers, if the comparison
provider call raises any fault, `compare_responses` returns the inline
failure narrative prefixed with `"Comparison failed: "` instead of
raising, so the caller always receives displayable text. -/
theorem compare_responses_total_on_faults (haiku : String → Except String String)
    (question deepseek claude e : String)
    (hfault : haiku (comparisonPrompt question deepseek claude) = Except.error e) :
    compare_responses haiku question deepseek claude = "Comparison failed: " ++ e := by
  unfold compare_responses
  rw [hfault]

/-- Witness for C7 with a failing comparison provider. -/
theorem compare_responses_total_on_faults_witness :
    demoStepMissing.haiku (comparisonPrompt ("Q") ("A") ("B")) =
      Except.error ("haiku down") ∧
    compare_responses demoStepMissing.haiku ("Q") ("A") ("B") =
      "Comparison failed: haiku down" :=
  ⟨rfl, compare_responses_total_on_faults demoStepMissing.haiku
    ("Q") ("A") ("B") ("haiku down") rfl⟩

end DeepClaude
